import Mathlib

/-!
Verification development for the gas-usage analyzer
(`04-error-handling-security/tools/gas-analyzer.py`).

The analyzer scans raw contract source text with Python regular
expressions, counts pattern occurrences, and aggregates heuristic gas
costs into a report.  This file embeds the analyzer shallowly:

* a small backtracking regular-expression engine mirroring the
  semantics of Python's `re` module for exactly the constructs the
  analyzer uses (character classes, literals, greedy `*`/`+` over a
  character class, alternation, optional groups, negative lookahead,
  word boundary, and the `re.MULTILINE` caret) — leftmost match,
  greedy with backtracking, and non-overlapping `findall` scanning;
* one Lean definition per detector method of the `GasAnalyzer` class,
  with the mutable `self.gas_hotspots` / `self.optimizations` lists
  turned into returned lists that are concatenated in the order the
  methods run;
* the report aggregation (`generate_gas_report`) and the
  `analyze_contract` entry point with the file read modelled as an
  `Except` value.

Character classes `\s`, `\w`, `\d` are modelled over their ASCII
meaning (Python's Unicode extensions of these classes are irrelevant
to the analyzed contract texts considered here).
-/

namespace GasAnalyzer

/-- ASCII whitespace as matched by Python's `\s`. -/
def isSpaceChar (c : Char) : Bool :=
  c = ' ' || c = '\t' || c = '\n' || c = '\r' || c = '\x0b' || c = '\x0c'

/-- ASCII word characters as matched by Python's `\w`. -/
def isWordChar (c : Char) : Bool :=
  ('a' ≤ c && c ≤ 'z') || ('A' ≤ c && c ≤ 'Z') || ('0' ≤ c && c ≤ '9') || c = '_'

/-- Decimal digits, Python's `\d`. -/
def isDigitChar (c : Char) : Bool := '0' ≤ c && c ≤ '9'

/-- Hexadecimal digits, the class `[0-9a-fA-F]`. -/
def isHexChar (c : Char) : Bool :=
  isDigitChar c || ('a' ≤ c && c ≤ 'f') || ('A' ≤ c && c ≤ 'F')

/-- The character classes appearing in the analyzer's patterns. -/
inductive CharClass where
  | ws | word | digit | hex | nonParen | nonBrace | nonEq | nonQuote
deriving DecidableEq

/-- Membership test of a character in a class. -/
def CharClass.mem : CharClass → Char → Bool
  | .ws, c => isSpaceChar c
  | .word, c => isWordChar c
  | .digit, c => isDigitChar c
  | .hex, c => isHexChar c
  | .nonParen, c => c ≠ ')'
  | .nonBrace, c => c ≠ '}'
  | .nonEq, c => c ≠ '='
  | .nonQuote, c => c ≠ '\"'

/-- Regular expressions over the constructs the analyzer's patterns use.
`star`/`plus` apply only to a character class, exactly as in every
pattern of the source (`\s*`, `\w+`, `[^)]*`, …). -/
inductive RE where
  | eps
  | lit (c : Char)
  | cls (p : CharClass)
  | seq (a b : RE)
  | alt (a b : RE)
  | opt (a : RE)
  | star (p : CharClass)
  | plus (p : CharClass)
  | nla (a : RE)
  | wb
deriving DecidableEq

/-- A literal string as a regular expression. -/
def RE.lits (s : String) : RE :=
  s.data.foldr (fun c r => RE.seq (RE.lit c) r) RE.eps

/-- Sequencing of a list of regular expressions. -/
def seqs (l : List RE) : RE := l.foldr RE.seq RE.eps

/-- Result of a match attempt: on success, the last consumed character
(context for `\b`) and the remaining suffix. -/
abbrev MRes := Option (Option Char × List Char)

/-- A matcher continuation. -/
abbrev MCont := Option Char → List Char → MRes

/-- Greedy Kleene star of a character class, in continuation-passing
style: the longest extension is tried first and shorter ones on
backtracking, as Python's engine does. -/
def starRun (p : CharClass) : Option Char → List Char → MCont → MRes
  | prev, [], k => k prev []
  | prev, c :: rest, k =>
    if p.mem c then
      match starRun p (some c) rest k with
      | some r => some r
      | none => k prev (c :: rest)
    else k prev (c :: rest)

/-- Whether an optional character counts as a word character (`none`
stands for the edge of the string, a non-word position). -/
def isWordOpt : Option Char → Bool
  | none => false
  | some c => isWordChar c

/-- First character of the remaining input, if any. -/
def headChar : List Char → Option Char
  | [] => none
  | c :: _ => some c

/-- Python's `\b`: the previous and next positions differ in wordness. -/
def wordBoundary (prev : Option Char) (s : List Char) : Bool :=
  isWordOpt prev != isWordOpt (headChar s)

/-- The backtracking matcher.  `prev` is the character immediately
before the current position (`none` at the start of the subject),
needed for `\b`.  Alternation tries the left branch first, `opt` tries
to match before skipping, `star`/`plus` are greedy: all exactly as in
Python's `re`. -/
def reM : RE → Option Char → List Char → MCont → MRes
  | .eps, prev, s, k => k prev s
  | .lit c, _, s, k =>
    match s with
    | [] => none
    | d :: rest => if d = c then k (some d) rest else none
  | .cls p, _, s, k =>
    match s with
    | [] => none
    | d :: rest => if p.mem d then k (some d) rest else none
  | .seq a b, prev, s, k => reM a prev s (fun p2 s2 => reM b p2 s2 k)
  | .alt a b, prev, s, k =>
    match reM a prev s k with
    | some r => some r
    | none => reM b prev s k
  | .opt a, prev, s, k =>
    match reM a prev s k with
    | some r => some r
    | none => k prev s
  | .star p, prev, s, k => starRun p prev s k
  | .plus p, prev, s, k =>
    match s with
    | [] => none
    | c :: rest => if p.mem c then starRun p (some c) rest k else none
  | .nla a, prev, s, k =>
    match reM a prev s (fun p2 s2 => some (p2, s2)) with
    | some _ => none
    | none => k prev s
  | .wb, prev, s, k => if wordBoundary prev s then k prev s else none

/-- Attempt a match of `r` at the current position. -/
def matchHere (r : RE) (prev : Option Char) (s : List Char) : MRes :=
  reM r prev s (fun p2 s2 => some (p2, s2))

/-- Whether the current position begins a line (for `re.MULTILINE` `^`). -/
def lineStart : Option Char → Bool
  | none => true
  | some c => c = '\n'

/-- Number of matches found by `re.findall`, with explicit fuel so the
recursion is structural: scan left to right, at each position attempt
a match (only at line starts when `anchored`, for patterns beginning
with a multiline `^`); on success count it and resume after the
matched text, on failure advance one character.  Every step either
moves past a non-empty match or advances one character, so fuel
`s.length + 1` (as supplied by `countAux`) never runs out. -/
def countFuel (r : RE) (anchored : Bool) : Nat → Option Char → List Char → Nat
  | 0, _, _ => 0
  | fuel + 1, prev, s =>
    match (if anchored && !lineStart prev then none else matchHere r prev s : MRes) with
    | some (p2, s2) =>
      if s2.length < s.length then
        1 + countFuel r anchored fuel p2 s2
      else
        match s with
        | [] => 1
        | c :: rest => 1 + countFuel r anchored fuel (some c) rest
    | none =>
      match s with
      | [] => 0
      | c :: rest => countFuel r anchored fuel (some c) rest

/-- The `re.findall` match count over a full scan. -/
def countAux (r : RE) (anchored : Bool) (prev : Option Char) (s : List Char) : Nat :=
  countFuel r anchored (s.length + 1) prev s

/-- Python's `re.search` as a Boolean: some suffix position matches. -/
def searchAux (r : RE) (prev : Option Char) (s : List Char) : Bool :=
  if (matchHere r prev s).isSome then true
  else
    match s with
    | [] => false
    | c :: rest => searchAux r (some c) rest

/-- Count of `re.findall` matches of `r` over a source string. -/
def reCount (r : RE) (anchored : Bool) (code : String) : Nat :=
  countAux r anchored none code.data

/-- Boolean `re.search` of `r` over a source string. -/
def reSearch (r : RE) (code : String) : Bool :=
  searchAux r none code.data

/-- Matches found by `re.findall` for a pattern of the form
`PRE { ([^}]+) }`: at each position attempt the head pattern `pre`
(which ends just after the opening brace); on success the captured
group is the maximal non-empty run of non-`}` characters, which must
be followed by `}` — exactly the (deterministic) behavior of the
greedy `[^}]+` here.  If the brace part fails, the whole pattern fails
at this position and the scan advances one character.  Fuel makes the
recursion structural; every step either moves past a non-empty match
or advances one character, so fuel `s.length + 1` (as supplied by
`blocksAux`) never runs out. -/
def blocksFuel (pre : RE) : Nat → Option Char → List Char → List (List Char)
  | 0, _, _ => []
  | fuel + 1, prev, s =>
    let adv : List (List Char) :=
      match s with
      | [] => []
      | c :: rest => blocksFuel pre fuel (some c) rest
    match matchHere pre prev s with
    | some (_, s2) =>
      let body := s2.takeWhile (fun c => c ≠ '}')
      match s2.drop body.length with
      | '}' :: tail =>
        if body.length = 0 then adv
        else if tail.length < s.length then
          body :: blocksFuel pre fuel (some '}') tail
        else [body]
      | _ => adv
    | none => adv

/-- The captured bodies of a `PRE{([^}]+)}` scan. -/
def blocksAux (pre : RE) (prev : Option Char) (s : List Char) : List (List Char) :=
  blocksFuel pre (s.length + 1) prev s

/-- Bodies captured by `re.findall` for a `PRE{([^}]+)}` pattern. -/
def reBlocks (pre : RE) (code : String) : List (List Char) :=
  blocksAux pre none code.data

/-- Matches of `(\w+)\s*=\s*([^;]+);` found by `re.findall`, as
`(variable, value)` pairs of captured groups.  The head `(\w+)\s*=` is
deterministic (maximal word run, maximal whitespace, then `=`).  After
the `=`, the greedy `\s*` is tried longest first; with `t` the run of
non-`;` characters after the `=` (which must be followed by `;`),
`w` its whitespace part and `u` the rest, the value group is `u` when
`u` is non-empty, and otherwise (the next character after the
whitespace being the `;` itself) the engine backtracks one whitespace
character, so the value is the last whitespace character when `w` is
non-empty; with both empty the pattern fails at this position.  Fuel
makes the recursion structural; every step either moves past a
non-empty match or advances one character, so fuel `s.length + 1`
(as supplied by `constAux`) never runs out. -/
def constFuel : Nat → List Char → List (List Char × List Char)
  | 0, _ => []
  | fuel + 1, s =>
    match s with
    | [] => []
    | c :: rest =>
      let name := (c :: rest).takeWhile isWordChar
      if name.length = 0 then constFuel fuel rest
      else
        let r1 := (c :: rest).drop name.length
        let sp := r1.takeWhile isSpaceChar
        match r1.drop sp.length with
        | '=' :: r0 =>
          let t := r0.takeWhile (fun d => d ≠ ';')
          match r0.drop t.length with
          | ';' :: tail =>
            let w := t.takeWhile isSpaceChar
            let u := t.drop w.length
            if tail.length < rest.length + 1 then
              if u.length ≠ 0 then (name, u) :: constFuel fuel tail
              else if w.length ≠ 0 then (name, [w.getLastD ' ']) :: constFuel fuel tail
              else constFuel fuel rest
            else constFuel fuel rest
          | _ => constFuel fuel rest
        | _ => constFuel fuel rest

/-- All matches of the assignment pattern over a scan of `s`. -/
def constAux (s : List Char) : List (List Char × List Char) :=
  constFuel (s.length + 1) s

/-- Matches of the assignment pattern of `_check_constant_variables`
over a source string. -/
def constMatches (code : String) : List (List Char × List Char) :=
  constAux code.data

/-! ### The analyzer's concrete patterns -/

/-- Shorthand for `\s*`. -/
def wsStar : RE := RE.star .ws

/-- Shorthand for `\s+`. -/
def wsPlus : RE := RE.plus .ws

/-- Shorthand for `\w+`. -/
def wordPlus : RE := RE.plus .word

/-- The type alternation of the storage-variable pattern:
`(uint\d*|int\d*|bool|address|bytes\d*|string)`. -/
def typeTok : RE :=
  RE.alt (RE.seq (RE.lits "uint") (RE.star .digit))
    (RE.alt (RE.seq (RE.lits "int") (RE.star .digit))
      (RE.alt (RE.lits "bool")
        (RE.alt (RE.lits "address")
          (RE.alt (RE.seq (RE.lits "bytes") (RE.star .digit))
            (RE.lits "string")))))

/-- The optional visibility part `(?:public\s+|private\s+|internal\s+)?`. -/
def visTok : RE :=
  RE.opt (RE.alt (RE.seq (RE.lits "public") wsPlus)
    (RE.alt (RE.seq (RE.lits "private") wsPlus)
      (RE.seq (RE.lits "internal") wsPlus)))

/-- Pattern `^\s*(uint\d*|int\d*|bool|address|bytes\d*|string)\s+(?:public\s+|private\s+|internal\s+)?(\w+)`
of `analyze_storage_usage` (used with `re.MULTILINE`). -/
def storageVarRE : RE := seqs [wsStar, typeTok, wsPlus, visTok, wordPlus]

/-- Pattern `\w+\s*=\s*[^=]` counting assignments in `analyze_storage_usage`. -/
def assignRE : RE := seqs [wordPlus, wsStar, RE.lit '=', wsStar, RE.cls .nonEq]

/-- Head of the for-loop pattern `for\s*\([^)]+\)\s*{([^}]+)}`. -/
def forHeadRE : RE :=
  seqs [RE.lits "for", wsStar, RE.lit '(', RE.plus .nonParen, RE.lit ')', wsStar, RE.lit '{']

/-- Head of the while-loop pattern `while\s*\([^)]+\)\s*{([^}]+)}`. -/
def whileHeadRE : RE :=
  seqs [RE.lits "while", wsStar, RE.lit '(', RE.plus .nonParen, RE.lit ')', wsStar, RE.lit '{']

/-- Pattern `\w+\s*\[\s*\w+\s*\]\s*=` (storage write in a loop body;
also the mapping-write pattern of `analyze_mapping_operations`). -/
def indexedAssignRE : RE :=
  seqs [wordPlus, wsStar, RE.lit '[', wsStar, wordPlus, wsStar, RE.lit ']', wsStar, RE.lit '=']

/-- Pattern `\w+\.\w+\s*\(` (external/dotted call). -/
def dottedCallRE : RE :=
  seqs [wordPlus, RE.lit '.', wordPlus, wsStar, RE.lit '(']

/-- The function-definition pattern of `analyze_function_patterns`:
`function\s+(\w+)\s*\([^)]*\)\s*(external|public|internal|private)?\s*(view|pure|payable)?\s*(?:returns\s*\([^)]*\))?\s*{`. -/
def functionRE : RE :=
  seqs [RE.lits "function", wsPlus, wordPlus, wsStar,
    RE.lit '(', RE.star .nonParen, RE.lit ')', wsStar,
    RE.opt (RE.alt (RE.lits "external")
      (RE.alt (RE.lits "public") (RE.alt (RE.lits "internal") (RE.lits "private")))),
    wsStar,
    RE.opt (RE.alt (RE.lits "view") (RE.alt (RE.lits "pure") (RE.lits "payable"))),
    wsStar,
    RE.opt (seqs [RE.lits "returns", wsStar, RE.lit '(', RE.star .nonParen, RE.lit ')']),
    wsStar, RE.lit '{']

/-- Pattern `delegatecall\s*\(`. -/
def delegatecallRE : RE := seqs [RE.lits "delegatecall", wsStar, RE.lit '(']

/-- A keyword delimited by `\b` on both sides. -/
def wordTok (s : String) : RE := seqs [RE.wb, RE.lits s, RE.wb]

/-- Pattern `\buint\b(?!\d)`. -/
def uintBareRE : RE := seqs [RE.wb, RE.lits "uint", RE.wb, RE.nla (RE.cls .digit)]

/-- Pattern `\bbytes\d*\b`. -/
def bytesRE : RE := seqs [RE.wb, RE.lits "bytes", RE.star .digit, RE.wb]

/-- Pattern `\.push\s*\(`. -/
def pushRE : RE := seqs [RE.lit '.', RE.lits "push", wsStar, RE.lit '(']

/-- Pattern `\.pop\s*\(`. -/
def popRE : RE := seqs [RE.lit '.', RE.lits "pop", wsStar, RE.lit '(']

/-- Pattern `\w+\s*\[\s*\d+\s*\]` (literal-indexed array access). -/
def arrayAccessRE : RE :=
  seqs [wordPlus, wsStar, RE.lit '[', wsStar, RE.plus .digit, wsStar, RE.lit ']']

/-- Pattern `\w+\s*\[\s*\w+\s*\](?!\s*=)` (mapping read). -/
def mappingReadRE : RE :=
  seqs [wordPlus, wsStar, RE.lit '[', wsStar, wordPlus, wsStar, RE.lit ']',
    RE.nla (RE.seq wsStar (RE.lit '='))]

/-- Pattern `function\s+\w+\s*\([^)]*\)\s*public` of `_check_function_visibility`. -/
def publicFuncRE : RE :=
  seqs [RE.lits "function", wsPlus, wordPlus, wsStar,
    RE.lit '(', RE.star .nonParen, RE.lit ')', wsStar, RE.lits "public"]

/-- Pattern `require\s*\(`. -/
def requireRE : RE := seqs [RE.lits "require", wsStar, RE.lit '(']

/-- Pattern `error\s+\w+` (custom-error declaration). -/
def errorDeclRE : RE := seqs [RE.lits "error", wsPlus, wordPlus]

/-- Pattern `event\s+\w+`. -/
def eventRE : RE := seqs [RE.lits "event", wsPlus, wordPlus]

/-- Pattern `emit\s+\w+`. -/
def emitRE : RE := seqs [RE.lits "emit", wsPlus, wordPlus]

/-- Head of the struct pattern `struct\s+\w+\s*{([^}]+)}`. -/
def structHeadRE : RE :=
  seqs [RE.lits "struct", wsPlus, wordPlus, wsStar, RE.lit '{']

/-- Pattern `uint(?:8|16|32|64|128)` used inside struct bodies. -/
def smallUintRE : RE :=
  RE.seq (RE.lits "uint")
    (RE.alt (RE.lits "8")
      (RE.alt (RE.lits "16")
        (RE.alt (RE.lits "32") (RE.alt (RE.lits "64") (RE.lits "128")))))

/-- The literal pattern `\b(0x[0-9a-fA-F]+|\d+|true|false|"[^"]*")\b`
searched inside assignment values by `_check_constant_variables`. -/
def literalRE : RE :=
  seqs [RE.wb,
    RE.alt (RE.seq (RE.lits "0x") (RE.plus .hex))
      (RE.alt (RE.plus .digit)
        (RE.alt (RE.lits "true")
          (RE.alt (RE.lits "false")
            (seqs [RE.lit '\"', RE.star .nonQuote, RE.lit '\"'])))),
    RE.wb]

/-! ### Data model -/

/-- A gas hotspot record as appended to `self.gas_hotspots`. -/
structure Hotspot where
  type : String
  severity : String
  description : String
  estimated_cost : Int
  optimization : String
deriving DecidableEq

/-- An optimization suggestion as appended to `self.optimizations`. -/
structure Optimization where
  type : String
  description : String
  gas_savings : Int
deriving DecidableEq

/-- The `summary` object of the report. -/
structure Summary where
  total_estimated_cost : Int
  total_potential_savings : Int
  efficiency_score : Int
  hotspot_count : Nat
  optimization_count : Nat
deriving DecidableEq

/-- The report produced by `generate_gas_report`. -/
structure Report where
  file_path : String
  analysis_timestamp : String
  summary : Summary
  gas_hotspots : List Hotspot
  optimizations : List Optimization
deriving DecidableEq

/-! ### Detectors

Each detector method of the Python class appends records to the
analyzer's mutable lists; here each returns the list of records it
appends, and the lists are concatenated in the order the methods run
in `analyze_contract`. -/

/-- Count of storage-variable declarations found by
`analyze_storage_usage` (multiline-anchored pattern). -/
def storageVarCount (code : String) : Nat := reCount storageVarRE true code

/-- Count of assignments found by `analyze_storage_usage`. -/
def storageWriteCount (code : String) : Nat := reCount assignRE false code

/-- The `analyze_storage_usage` detector. -/
def analyze_storage_usage (code : String) : List Hotspot :=
  let nVars := storageVarCount code
  let nWrites := storageWriteCount code
  [{ type := "STORAGE_USAGE"
     severity := if nVars > 10 then "MEDIUM" else "LOW"
     description := "Found " ++ toString nVars ++ " storage variables, " ++
       toString nWrites ++ " assignments"
     estimated_cost := (nVars : Int) * 20000 + (nWrites : Int) * 5000
     optimization := "Consider packing variables, using memory for temporary data" }]

/-- The loop bodies scanned by `analyze_loop_patterns`
(`for_loops + while_loops`). -/
def loopBodies (code : String) : List (List Char) :=
  reBlocks forHeadRE code ++ reBlocks whileHeadRE code

/-- Contribution of one loop body to `expensive_in_loops`: one for a
storage write in the body and one for an external call in the body
(two separate `if` statements in the source, so a body showing both
patterns contributes 2). -/
def expensiveScore (body : List Char) : Nat :=
  (if searchAux indexedAssignRE none body then 1 else 0) +
  (if searchAux dottedCallRE none body then 1 else 0)

/-- The `expensive_in_loops` counter of `analyze_loop_patterns`. -/
def expensiveInLoops (code : String) : Nat :=
  ((loopBodies code).map expensiveScore).sum

/-- The `analyze_loop_patterns` detector: emits a hotspot only when at
least one loop matched. -/
def analyze_loop_patterns (code : String) : List Hotspot :=
  let bodies := loopBodies code
  let exp := expensiveInLoops code
  if bodies.length = 0 then []
  else
    [{ type := "LOOP_OPERATIONS"
       severity := if exp > 0 then "HIGH" else "MEDIUM"
       description := "Found " ++ toString bodies.length ++ " loops, " ++
         toString exp ++ " with expensive operations"
       estimated_cost := (bodies.length : Int) * 1000 + (exp : Int) * 10000
       optimization := "Minimize storage operations and external calls in loops" }]

/-- The `analyze_function_patterns` detector (unconditional emission). -/
def analyze_function_patterns (code : String) : List Hotspot :=
  let nFuncs := reCount functionRE false code
  let nExt := reCount dottedCallRE false code
  let nDel := reCount delegatecallRE false code
  [{ type := "FUNCTION_CALLS"
     severity := "MEDIUM"
     description := "Found " ++ toString nFuncs ++ " functions, " ++
       toString nExt ++ " external calls, " ++ toString nDel ++ " delegate calls"
     estimated_cost := (nFuncs : Int) * 500 + (nExt : Int) * 700 + (nDel : Int) * 700
     optimization := "Use internal functions when possible, batch external calls" }]

/-- The `analyze_data_types` detector (optimization suggestions only).
The counts of `uint128`, `uint64` and `uint32` computed by the source
are dead: they never reach a cost formula or a condition. -/
def analyze_data_types (code : String) : List Optimization :=
  let sc := reCount (wordTok "string") false code
  let bc := reCount bytesRE false code
  let u256 := reCount (wordTok "uint256") false code
  let ub := reCount uintBareRE false code
  (if sc > bc then
    [{ type := "DATA_TYPE_OPTIMIZATION"
       description := "Consider using bytes32 instead of string for fixed-length data (" ++
         toString sc ++ " string usages found)"
       gas_savings := (sc : Int) * 20 }]
  else []) ++
  (if u256 > ub * 2 then
    [{ type := "DATA_TYPE_OPTIMIZATION"
       description := "Consider using uint instead of uint256 where possible (" ++
         toString u256 ++ " uint256 usages found)"
       gas_savings := (u256 : Int) * 5 }]
  else [])

/-- The `analyze_array_operations` detector.  The array-declaration
`findall` of the source is dead computation (its result is unused). -/
def analyze_array_operations (code : String) : List Hotspot :=
  let nPush := reCount pushRE false code
  let nPop := reCount popRE false code
  let nAcc := reCount arrayAccessRE false code
  if nPush + nPop + nAcc > 0 then
    let cost : Int := (nPush : Int) * 20000 + (nPop : Int) * 5000 + (nAcc : Int) * 800
    [{ type := "ARRAY_OPERATIONS"
       severity := if cost > 50000 then "MEDIUM" else "LOW"
       description := "Array operations: " ++ toString nPush ++ " push, " ++
         toString nPop ++ " pop, " ++ toString nAcc ++ " access"
       estimated_cost := cost
       optimization := "Consider using mappings for large datasets, batch array operations" }]
  else []

/-- The `analyze_mapping_operations` detector.  The mapping-declaration
`findall` of the source is dead computation (its result is unused). -/
def analyze_mapping_operations (code : String) : List Hotspot :=
  let nReads := reCount mappingReadRE false code
  let nWrites := reCount indexedAssignRE false code
  if nReads + nWrites > 0 then
    [{ type := "MAPPING_OPERATIONS"
       severity := "LOW"
       description := "Mapping operations: " ++ toString nReads ++ " reads, " ++
         toString nWrites ++ " writes"
       estimated_cost := (nReads : Int) * 800 + (nWrites : Int) * 20000
       optimization := "Mappings are generally gas-efficient for key-value storage" }]
  else []

/-- The `_check_constant_variables` suggestion: one optimization per
assignment match whose value contains a literal token. -/
def check_constant_variables (code : String) : List Optimization :=
  (constMatches code).filterMap (fun pr =>
    if searchAux literalRE none pr.2 then
      some { type := "CONSTANT_OPTIMIZATION"
             description := "Variable \"" ++ String.mk pr.1 ++
               "\" could be marked as constant if not modified"
             gas_savings := 2300 }
    else none)

/-- The `_check_function_visibility` suggestion. -/
def check_function_visibility (code : String) : List Optimization :=
  let n := reCount publicFuncRE false code
  if n > 0 then
    [{ type := "VISIBILITY_OPTIMIZATION"
       description := "Consider making functions internal/private if not called externally (" ++
         toString n ++ " public functions found)"
       gas_savings := (n : Int) * 50 }]
  else []

/-- The `_check_require_statements` suggestion. -/
def check_require_statements (code : String) : List Optimization :=
  let n := reCount requireRE false code
  if n > 0 ∧ ¬ reSearch errorDeclRE code then
    [{ type := "ERROR_OPTIMIZATION"
       description := "Consider using custom errors instead of require strings (" ++
         toString n ++ " require statements found)"
       gas_savings := (n : Int) * 100 }]
  else []

/-- The `_check_event_usage` suggestion. -/
def check_event_usage (code : String) : List Optimization :=
  let ev := reCount eventRE false code
  let em := reCount emitRE false code
  if ev > em then
    [{ type := "EVENT_OPTIMIZATION"
       description := "Some events are declared but not emitted (" ++
         toString ev ++ " events, " ++ toString em ++ " emits)"
       gas_savings := ((ev : Int) - (em : Int)) * 375 }]
  else []

/-- The `_check_struct_packing` suggestion: one optimization per struct
whose body mixes `uint256` fields with narrower integer fields. -/
def check_struct_packing (code : String) : List Optimization :=
  (reBlocks structHeadRE code).filterMap (fun body =>
    let big := countAux (RE.lits "uint256") false none body
    let small := countAux smallUintRE false none body
    if big > 0 ∧ small > 0 then
      some { type := "STRUCT_PACKING"
             description := "Struct may benefit from variable packing (reorder smaller types together)"
             gas_savings := 2000 }
    else none)

/-! ### Aggregation -/

/-- All hotspots accumulated by one run of `analyze_contract`, in the
order the detector methods execute. -/
def gasHotspots (code : String) : List Hotspot :=
  analyze_storage_usage code ++ analyze_loop_patterns code ++
  analyze_function_patterns code ++ analyze_array_operations code ++
  analyze_mapping_operations code

/-- All optimization suggestions accumulated by one run, in execution
order (`analyze_data_types` runs before `suggest_optimizations`). -/
def allOptimizations (code : String) : List Optimization :=
  analyze_data_types code ++ check_constant_variables code ++
  check_function_visibility code ++ check_require_statements code ++
  check_event_usage code ++ check_struct_packing code

/-- The `generate_gas_report` aggregator.  The timestamp
(`datetime.now().isoformat()` in the source) is an input here, since
it is the one non-deterministic ingredient of the report. -/
def generate_gas_report (file_path timestamp code : String) : Report :=
  let hs := gasHotspots code
  let ops := allOptimizations code
  let totalCost := (hs.map (fun h => h.estimated_cost)).sum
  let totalSave := (ops.map (fun o => o.gas_savings)).sum
  { file_path := file_path
    analysis_timestamp := timestamp
    summary :=
      { total_estimated_cost := totalCost
        total_potential_savings := totalSave
        efficiency_score := max 0 (100 - Int.fdiv totalCost 1000)
        hotspot_count := hs.length
        optimization_count := ops.length }
    gas_hotspots := hs
    optimizations := ops }

/-- The `analyze_contract` entry point.  The file read is modelled as
an `Except` value supplied by the caller: on a read error the method
returns without running any detector and produces no report (the
source returns the empty dict `{}`), otherwise the full report is
produced. -/
def analyze_contract (readResult : Except String String)
    (file_path timestamp : String) : Option Report :=
  match readResult with
  | .error _ => none
  | .ok code => some (generate_gas_report file_path timestamp code)

/-! ### Specification-side definitions and sample inputs -/

/-- Clamping of `x` to the interval `[lo, hi]`, as the specification
words the efficiency-score formula. -/
def clamp (lo hi x : Int) : Int := max lo (min hi x)

/-- Claim wording for the constant-candidate detector: the right-hand
side of the assignment IS a literal — a hex literal, a decimal
literal, a Boolean, or a quoted string — up to surrounding
whitespace.  (The code instead searches for a literal token anywhere
inside the value; this definition exists to compare the two.) -/
def specIsLiteral (v : List Char) : Bool :=
  let t := ((v.dropWhile isSpaceChar).reverse.dropWhile isSpaceChar).reverse
  (match t with
   | '0' :: 'x' :: rest => rest.length ≠ 0 && rest.all isHexChar
   | _ => false) ||
  (t.length ≠ 0 && t.all isDigitChar) ||
  t = "true".data || t = "false".data ||
  (match t with
   | '\"' :: rest =>
     rest.length ≠ 0 && rest.getLast? = some '\"' &&
       rest.dropLast.all (fun c => c ≠ '\"')
   | _ => false)

/-- A single for loop whose body contains one indexed assignment and
one dotted call. -/
def loopBothSample : String := "for (i) { a[i] = b; c.d(); }"

/-- A single for loop whose body contains one dotted call only
(the specification's loop scenario). -/
def loopCallSample : String := "for (i) { c.d(); }"

/-- The specification's storage scenario: fifteen top-level `uint256`
state-variable declarations followed by five assignment statements. -/
def storageSample : String :=
  "uint256 a1;\nuint256 a2;\nuint256 a3;\nuint256 a4;\nuint256 a5;\n" ++
  "uint256 a6;\nuint256 a7;\nuint256 a8;\nuint256 a9;\nuint256 a10;\n" ++
  "uint256 a11;\nuint256 a12;\nuint256 a13;\nuint256 a14;\nuint256 a15;\n" ++
  "a1 = 1;\na2 = 2;\na3 = 3;\na4 = 4;\na5 = 5;\n"

/-! ### Helper lemmas -/

/-- Floor division of `ofNat` by 1000 is non-negative. -/
lemma fdiv_ofNat_thousand_nonneg : ∀ m : Nat, 0 ≤ Int.fdiv (Int.ofNat m) 1000
  | 0 => by decide
  | Nat.succ k => by
    show (0 : Int) ≤ Int.ofNat (Nat.succ k / 1000)
    exact Int.ofNat_nonneg _

/-- Floor division of a non-negative integer by 1000 is non-negative. -/
lemma fdiv_thousand_nonneg (a : Int) (ha : 0 ≤ a) : 0 ≤ Int.fdiv a 1000 := by
  obtain ⟨m, rfl⟩ := Int.eq_ofNat_of_zero_le ha
  exact fdiv_ofNat_thousand_nonneg m

/-- Every storage hotspot carries a non-negative estimated cost. -/
lemma storage_cost_nonneg (code : String) (h : Hotspot)
    (hm : h ∈ analyze_storage_usage code) : 0 ≤ h.estimated_cost := by
  simp only [analyze_storage_usage, List.mem_singleton] at hm
  subst hm
  dsimp only
  positivity

/-- Every loop hotspot carries a non-negative estimated cost. -/
lemma loop_cost_nonneg (code : String) (h : Hotspot)
    (hm : h ∈ analyze_loop_patterns code) : 0 ≤ h.estimated_cost := by
  simp only [analyze_loop_patterns] at hm
  split at hm
  · simp at hm
  · simp only [List.mem_singleton] at hm
    subst hm
    dsimp only
    positivity

/-- Every function-call hotspot carries a non-negative estimated cost. -/
lemma function_cost_nonneg (code : String) (h : Hotspot)
    (hm : h ∈ analyze_function_patterns code) : 0 ≤ h.estimated_cost := by
  simp only [analyze_function_patterns, List.mem_singleton] at hm
  subst hm
  dsimp only
  positivity

/-- Every array hotspot carries a non-negative estimated cost. -/
lemma array_cost_nonneg (code : String) (h : Hotspot)
    (hm : h ∈ analyze_array_operations code) : 0 ≤ h.estimated_cost := by
  simp only [analyze_array_operations] at hm
  split at hm
  · simp only [List.mem_singleton] at hm
    subst hm
    dsimp only
    positivity
  · simp at hm

/-- Every mapping hotspot carries a non-negative estimated cost. -/
lemma mapping_cost_nonneg (code : String) (h : Hotspot)
    (hm : h ∈ analyze_mapping_operations code) : 0 ≤ h.estimated_cost := by
  simp only [analyze_mapping_operations] at hm
  split at hm
  · simp only [List.mem_singleton] at hm
    subst hm
    dsimp only
    positivity
  · simp at hm

/-- Every hotspot of a run carries a non-negative estimated cost. -/
lemma hotspot_cost_nonneg (code : String) (h : Hotspot)
    (hm : h ∈ gasHotspots code) : 0 ≤ h.estimated_cost := by
  simp only [gasHotspots, List.mem_append] at hm
  rcases hm with ((((hm | hm) | hm) | hm) | hm)
  · exact storage_cost_nonneg code h hm
  · exact loop_cost_nonneg code h hm
  · exact function_cost_nonneg code h hm
  · exact array_cost_nonneg code h hm
  · exact mapping_cost_nonneg code h hm

/-- Every optimization suggestion of a run carries non-negative savings. -/
lemma optimization_savings_nonneg (code : String) (o : Optimization)
    (hm : o ∈ allOptimizations code) : 0 ≤ o.gas_savings := by
  simp only [allOptimizations, List.mem_append] at hm
  rcases hm with (((((hm | hm) | hm) | hm) | hm) | hm)
  · simp only [analyze_data_types, List.mem_append] at hm
    rcases hm with hm | hm
    · split at hm
      · simp only [List.mem_singleton] at hm
        subst hm
        dsimp only
        positivity
      · simp at hm
    · split at hm
      · simp only [List.mem_singleton] at hm
        subst hm
        dsimp only
        positivity
      · simp at hm
  · simp only [check_constant_variables, List.mem_filterMap] at hm
    obtain ⟨pr, _, heq⟩ := hm
    split at heq
    · cases heq
      norm_num
    · cases heq
  · simp only [check_function_visibility] at hm
    split at hm
    · simp only [List.mem_singleton] at hm
      subst hm
      dsimp only
      positivity
    · simp at hm
  · simp only [check_require_statements] at hm
    split at hm
    · simp only [List.mem_singleton] at hm
      subst hm
      dsimp only
      positivity
    · simp at hm
  · simp only [check_event_usage] at hm
    split at hm
    case isTrue hgt =>
      simp only [List.mem_singleton] at hm
      subst hm
      dsimp only
      have : (reCount emitRE false code : Int) < (reCount eventRE false code : Int) := by
        exact_mod_cast hgt
      omega
    case isFalse _ => simp at hm
  · simp only [check_struct_packing, List.mem_filterMap] at hm
    obtain ⟨body, _, heq⟩ := hm
    split at heq
    · cases heq
      norm_num
    · cases heq

/-- The total estimated cost accumulated in a report is non-negative. -/
lemma total_cost_nonneg (code : String) :
    0 ≤ ((gasHotspots code).map (fun h => h.estimated_cost)).sum := by
  apply List.sum_nonneg
  intro x hx
  obtain ⟨h, hm, rfl⟩ := List.mem_map.1 hx
  exact hotspot_cost_nonneg code h hm

/-- A `filterMap` whose function is an if-then-some-else-none is the
map over the filtered list. -/
lemma filterMap_ite_eq_map_filter {α β : Type} (l : List α) (p : α → Bool) (f : α → β) :
    (l.filterMap (fun a => if p a then some (f a) else none))
      = (l.filter p).map f := by
  induction l with
  | nil => rfl
  | cons a t ih =>
    by_cases h : p a <;> simp [List.filterMap_cons, List.filter_cons, h, ih]

/-! ### Claim theorems -/

/-- C1: for every input source text, the efficiency score in the
report summary equals `clamp 0 100 (100 − ⌊total_cost / 1000⌋)` and is
therefore always within `[0, 100]`, including when the total estimated
cost is zero or very large. -/
theorem efficiency_score_clamped (path ts code : String) :
    (generate_gas_report path ts code).summary.efficiency_score
        = clamp 0 100
            (100 - Int.fdiv (generate_gas_report path ts code).summary.total_estimated_cost 1000)
    ∧ 0 ≤ (generate_gas_report path ts code).summary.efficiency_score
    ∧ (generate_gas_report path ts code).summary.efficiency_score ≤ 100 := by
  have htot := total_cost_nonneg code
  have hdiv := fdiv_thousand_nonneg _ htot
  simp only [generate_gas_report, clamp]
  refine ⟨?_, ?_, ?_⟩
  · rw [min_eq_right (by omega)]
  · exact le_max_left _ _
  · exact max_le (by norm_num) (by omega)

/-- C2 (counterexample): a single for loop whose body contains both an
indexed assignment and a dotted call is counted as expensive twice —
the two checks in `analyze_loop_patterns` are separate `if`
statements, so `expensive_in_loops` is 2 for this one loop and the
estimated cost is 21000, not the 11000 that a per-loop cap of one
would give. -/
theorem loop_double_count_cex :
    (loopBodies loopBothSample).length = 1
    ∧ expensiveInLoops loopBothSample = 2
    ∧ (analyze_loop_patterns loopBothSample).map (fun h => h.estimated_cost) = [21000]
    ∧ (21000 : Int) ≠ 1 * 1000 + 1 * 10000 :=
  ⟨by decide, by decide, by decide, by decide⟩

/-- C2 (amended): the loop detector's estimated cost equals
`loopCount × 1000 + expensiveCount × 10000`, where `expensiveCount`
sums, over each loop body, one for a contained indexed assignment plus
one for a contained dotted call (so a body showing both patterns
contributes 2, not at most 1); severity is HIGH when
`expensiveCount > 0` and MEDIUM otherwise, and the hotspot is absent
when there are zero loops.  A single for loop whose body contains one
dotted call yields estimated cost 11000 with severity HIGH. -/
theorem loop_cost_formula (code : String) :
    expensiveInLoops code
        = ((loopBodies code).map (fun b =>
            (if searchAux indexedAssignRE none b then 1 else 0) +
            (if searchAux dottedCallRE none b then 1 else 0))).sum
    ∧ analyze_loop_patterns code
        = (if (loopBodies code).length = 0 then ([] : List Hotspot)
           else
             [{ type := "LOOP_OPERATIONS"
                severity := if expensiveInLoops code > 0 then "HIGH" else "MEDIUM"
                description := "Found " ++ toString (loopBodies code).length ++ " loops, " ++
                  toString (expensiveInLoops code) ++ " with expensive operations"
                estimated_cost := ((loopBodies code).length : Int) * 1000 +
                  (expensiveInLoops code : Int) * 10000
                optimization := "Minimize storage operations and external calls in loops" }])
    ∧ (analyze_loop_patterns loopCallSample).map (fun h => (h.severity, h.estimated_cost))
        = [("HIGH", 11000)] :=
  ⟨rfl, rfl, by decide⟩

set_option maxRecDepth 40000 in
/-- C3: for every input, the storage hotspot's estimated cost is
`declarations × 20000 + assignments × 5000` with severity MEDIUM when
there are more than 10 declarations and LOW otherwise; the scenario
source with 15 top-level `uint256` declarations and 5 assignment
statements gives cost 325000 and severity MEDIUM. -/
theorem storage_cost_formula (code : String) :
    (analyze_storage_usage code).map (fun h => (h.estimated_cost, h.severity))
        = [((storageVarCount code : Int) * 20000 + (storageWriteCount code : Int) * 5000,
            if storageVarCount code > 10 then "MEDIUM" else "LOW")]
    ∧ storageVarCount storageSample = 15
    ∧ storageWriteCount storageSample = 5
    ∧ (analyze_storage_usage storageSample).map (fun h => (h.estimated_cost, h.severity))
        = [(325000, "MEDIUM")] :=
  ⟨rfl, by decide, by decide, by decide⟩

/-- C4: analyzing the empty string yields no hotspot for any
conditionally emitted category (only the two unconditional records,
storage and function calls, appear), no optimization suggestion at
all, and a report whose efficiency score is exactly 100. -/
theorem empty_input_report :
    (gasHotspots "").map (fun h => h.type) = ["STORAGE_USAGE", "FUNCTION_CALLS"]
    ∧ allOptimizations "" = []
    ∧ (generate_gas_report "contract.sol" "ts" "").summary.efficiency_score = 100 :=
  ⟨by decide, by decide, by decide⟩

/-- C5: for a fixed source text the full detector pass is
deterministic — two runs, differing only in their timestamps, produce
identical ordered hotspot sequences, identical ordered optimization
sequences, and identical summary totals. -/
theorem report_deterministic (path t1 t2 code : String) :
    (generate_gas_report path t1 code).gas_hotspots
        = (generate_gas_report path t2 code).gas_hotspots
    ∧ (generate_gas_report path t1 code).optimizations
        = (generate_gas_report path t2 code).optimizations
    ∧ (generate_gas_report path t1 code).summary
        = (generate_gas_report path t2 code).summary :=
  ⟨rfl, rfl, rfl⟩

/-- C6: every `estimated_cost` of every hotspot and every
`gas_savings` of every optimization in the produced report is
non-negative, for every input source text including the empty
string. -/
theorem report_values_nonneg (path ts code : String) :
    (∀ h ∈ (generate_gas_report path ts code).gas_hotspots, 0 ≤ h.estimated_cost)
    ∧ (∀ o ∈ (generate_gas_report path ts code).optimizations, 0 ≤ o.gas_savings) :=
  ⟨fun h hm => hotspot_cost_nonneg code h hm,
   fun o hm => optimization_savings_nonneg code o hm⟩

/-- Witness for the non-negativity theorem: the storage hotspot of the
empty source text. -/
theorem report_values_nonneg_witness :
    0 ≤ (Hotspot.mk "STORAGE_USAGE" "LOW" "Found 0 storage variables, 0 assignments" 0
          "Consider packing variables, using memory for temporary data").estimated_cost :=
  (report_values_nonneg "contract.sol" "ts" "").1 _ (by decide)

/-- The estimated cost of the storage-usage hotspot of a run. -/
def storageCost (code : String) : Int :=
  ((analyze_storage_usage code).map (fun h => h.estimated_cost)).sum

/-- C7: a change to the source that does not decrease either match
count the storage detector reads — appending further independent
occurrences of a detected pattern, such as one more assignment
statement, only increases them — never decreases the storage
category's estimated cost. -/
theorem storage_cost_monotone (c1 c2 : String)
    (hd : storageVarCount c1 ≤ storageVarCount c2)
    (hw : storageWriteCount c1 ≤ storageWriteCount c2) :
    storageCost c1 ≤ storageCost c2 := by
  simp only [storageCost, analyze_storage_usage, List.map_cons, List.map_nil,
    List.sum_cons, List.sum_nil, add_zero]
  omega

/-- Witness for monotonicity: appending one more assignment statement
to a one-assignment source. -/
theorem storage_cost_monotone_witness :
    storageVarCount "a = 1;\n" ≤ storageVarCount "a = 1;\nb = 2;\n"
    ∧ storageWriteCount "a = 1;\n" ≤ storageWriteCount "a = 1;\nb = 2;\n"
    ∧ storageCost "a = 1;\n" ≤ storageCost "a = 1;\nb = 2;\n" :=
  ⟨by decide, by decide,
    storage_cost_monotone "a = 1;\n" "a = 1;\nb = 2;\n" (by decide) (by decide)⟩

/-- C8: a run either aborts at the input-acquisition stage producing
no report (a read error makes `analyze_contract` return before any
detector runs), or produces the full report; the detector pass itself
is a total function of the source text. -/
theorem no_partial_report (path ts msg : String) :
    analyze_contract (Except.error msg) path ts = none
    ∧ ∀ code, analyze_contract (Except.ok code) path ts
        = some (generate_gas_report path ts code) :=
  ⟨rfl, fun _ => rfl⟩

/-- C9 (counterexample): on the source `x = y + 1;` exactly one
assignment statement matches, its right-hand side `y + 1` is not a
literal, and still the detector emits one optimization of 2300 — so a
match is not "exactly a single-assignment statement whose right-hand
side is a literal". -/
theorem constant_candidate_cex :
    (constMatches "x = y + 1;").map (fun pr => specIsLiteral pr.2) = [false]
    ∧ (check_constant_variables "x = y + 1;").map (fun o => o.gas_savings) = [2300] :=
  ⟨by decide, by decide⟩

/-- C9 (amended): the constant-candidate detector emits one
optimization with flat savings 2300 per assignment-statement match
whose captured value merely contains a word-boundary-delimited literal
token (hex, decimal, or Boolean; the quoted-string alternative can
only match adjacent to word characters, so a bare string-literal
right-hand side such as `s = "abc";` produces no suggestion). -/
theorem constant_candidate_flat_savings (code : String) :
    check_constant_variables code
        = ((constMatches code).filter (fun pr => searchAux literalRE none pr.2)).map
            (fun pr =>
              { type := "CONSTANT_OPTIMIZATION"
                description := "Variable \"" ++ String.mk pr.1 ++
                  "\" could be marked as constant if not modified"
                gas_savings := 2300 })
    ∧ check_constant_variables "s = \"abc\";" = [] := by
  refine ⟨?_, by decide⟩
  simp only [check_constant_variables]
  exact filterMap_ite_eq_map_filter _ _ _

/-- C10: the hotspot sequence always starts with the unconditional
STORAGE_USAGE record, always contains the unconditional
FUNCTION_CALLS record, keeps the fixed category order storage, loops,
functions, arrays, mappings, and therefore the hotspot count is
always at least 2. -/
theorem hotspot_order (path ts code : String) :
    (gasHotspots code).map (fun h => h.type)
        = ["STORAGE_USAGE"]
          ++ (analyze_loop_patterns code).map (fun h => h.type)
          ++ ["FUNCTION_CALLS"]
          ++ (analyze_array_operations code).map (fun h => h.type)
          ++ (analyze_mapping_operations code).map (fun h => h.type)
    ∧ (gasHotspots code).head?.map (fun h => h.type) = some "STORAGE_USAGE"
    ∧ 2 ≤ (generate_gas_report path ts code).summary.hotspot_count := by
  refine ⟨?_, rfl, ?_⟩
  · simp [gasHotspots, analyze_storage_usage, analyze_function_patterns, List.map_append]
  · simp only [generate_gas_report, gasHotspots, analyze_storage_usage,
      analyze_function_patterns, List.length_append, List.length_singleton]
    omega

end GasAnalyzer
